import Mathlib

/-!
Verification development for the CV_Analayzer repository.

This file embeds, in Lean, the parts of the Python source that the checked
claims are about:

* `src/models/resume_parser.py` — entity extraction from resume text
  (`_process_text` and its sub-extractors);
* `src/models/ats_checker.py` — ATS compatibility scoring
  (`analyze_resume` and its sub-checks);
* `src/models/keyword_matcher.py` — resume/job-description matching
  (`match_keywords`, `analyze_skill_match`);
* `src/controllers/analyzer_controller.py` — the match-analysis step of
  `analyze_resume` (lines 101–108, 130).

Modelling conventions:

* Strings are processed as explicit `List Char`; all Python string
  operations (`strip`, `split`, `lower`, substring search, slicing) are
  given executable structural-recursive definitions below.
* The handful of compiled `re` patterns used by the source are embedded via
  a small backtracking regular-expression engine (`RE`, `mrun`) whose
  candidate ordering reproduces Python's leftmost / greedy-with-backtracking
  match semantics for the constructs these patterns use (character classes,
  literals, alternation, greedy `*` `+` `?` `{m,n}` over classes, and the
  word boundary `\b`).  Inputs are ASCII, where Lean's `Char.isAlpha` etc.
  agree with Python's.
* Python `float` arithmetic in the scorers is modelled exactly over `ℚ`;
  `round` is modelled as round-half-to-even (`pyRound`, Python 3 `round`),
  `int(...)` as truncation toward zero (`pyTrunc`).  For the quantities in
  these claims the binary-float roundoff of the Python originals does not
  change any of the concrete values computed here.
* The machine-learning similarity backend (sentence-transformers / TF-IDF
  cosine) and the KeyBERT/TF-IDF requirement ranker are external numeric
  black boxes; they are abstracted as explicit function parameters
  (`sem`, `keyReq`) exactly at the call sites where the Python code calls
  them.
* Python exceptions that the embedded code itself can raise
  (`AttributeError` on the undefined `certifications_headers` attribute,
  `IndexError` in `_extract_education`) are modelled with `Option`,
  `none` standing for the raised exception.
-/

namespace CV

/-! ### Python-style character and string primitives -/

/-- Python `str.isspace` characters relevant to `\s` (ASCII). -/
def pyIsSpace (c : Char) : Bool :=
  c = ' ' || c = '\t' || c = '\n' || c = '\r' || c = '\x0b' || c = '\x0c'

def pyIsDigit (c : Char) : Bool := c.isDigit

def pyIsAlpha (c : Char) : Bool := c.isAlpha

def pyIsAlnum (c : Char) : Bool := c.isAlpha || c.isDigit

/-- Python regex `\w` (ASCII range). -/
def pyIsWord (c : Char) : Bool := pyIsAlnum c || c = '_'

def lowerL (l : List Char) : List Char := l.map Char.toLower

def upperL (l : List Char) : List Char := l.map Char.toUpper

/-- Python `str.lower()`. -/
def lowerS (s : String) : String := (lowerL s.data).asString

/-- Python `str.upper()`. -/
def upperS (s : String) : String := (upperL s.data).asString

/-- Python `str.lstrip()`. -/
def lstripL (l : List Char) : List Char := l.dropWhile pyIsSpace

/-- Python `str.rstrip()`. -/
def rstripL (l : List Char) : List Char := (l.reverse.dropWhile pyIsSpace).reverse

/-- Python `str.strip()`. -/
def stripL (l : List Char) : List Char := rstripL (lstripL l)

def stripS (s : String) : String := (stripL s.data).asString

/-- Python `str.split(c)` for a single separator character. -/
def splitChar (c : Char) : List Char → List (List Char)
  | [] => [[]]
  | x :: xs =>
    if x = c then [] :: splitChar c xs
    else
      match splitChar c xs with
      | [] => [[x]]
      | h :: t => (x :: h) :: t

/-- Python `sep.join(parts)`. -/
def joinSep (sep : List Char) : List (List Char) → List Char
  | [] => []
  | [x] => x
  | x :: y :: t => x ++ sep ++ joinSep sep (y :: t)

def joinSepS (sep : String) (parts : List String) : String :=
  (joinSep sep.data (parts.map String.data)).asString

/-- First index at which `pat` occurs as a contiguous sublist. -/
def subIdxAux (pat : List Char) : List Char → Nat → Option Nat
  | l, i =>
    if pat.isPrefixOf l then some i
    else
      match l with
      | [] => none
      | _ :: tl => subIdxAux pat tl (i + 1)

def subIdx? (hay pat : List Char) : Option Nat := subIdxAux pat hay 0

/-- Python `pat in hay` (substring containment). -/
def containsSub (hay pat : List Char) : Bool := (subIdx? hay pat).isSome

/-- Python `hay.find(pat)`: index of first occurrence, `-1` when absent. -/
def pyFind (hay pat : List Char) : Int :=
  match subIdx? hay pat with
  | some i => (i : Int)
  | none => -1

/-- Python string `<` (lexicographic by code point). -/
def lexLt : List Char → List Char → Bool
  | [], [] => false
  | [], _ :: _ => true
  | _ :: _, [] => false
  | x :: xs, y :: ys => if x = y then lexLt xs ys else decide (x.val < y.val)

def insAsc (x : String) : List String → List String
  | [] => [x]
  | y :: ys => if lexLt x.data y.data then x :: y :: ys else y :: insAsc x ys

/-- Python `sorted` on strings (ascending). -/
def sortStrs (l : List String) : List String := l.foldr insAsc []

/-- Increment the count of `w` in an insertion-ordered frequency list. -/
def bump (w : String) : List (String × Nat) → List (String × Nat)
  | [] => [(w, 1)]
  | (x, n) :: tl => if x = w then (x, n + 1) :: tl else (x, n) :: bump w tl

/-- Python dict-based word-frequency count (insertion ordered). -/
def tally (ws : List String) : List (String × Nat) :=
  ws.foldl (fun acc w => bump w acc) []

/-- Python tuple comparison `(n1, s1) > (n2, s2)` for `(freq, word)` pairs. -/
def pairGt (a b : Nat × String) : Bool :=
  decide (b.1 < a.1) || (decide (a.1 = b.1) && lexLt b.2.data a.2.data)

def insDesc (x : Nat × String) : List (Nat × String) → List (Nat × String)
  | [] => [x]
  | y :: ys => if pairGt x y then x :: y :: ys else y :: insDesc x ys

/-- Python `sorted(pairs, reverse=True)` on `(freq, word)` pairs. -/
def sortPairsDesc (l : List (Nat × String)) : List (Nat × String) :=
  l.foldr insDesc []

/-! ### Python `round` and `int` over exact rationals -/

/-- Python 3 `round` to the nearest integer, ties to even. -/
def pyRound (q : ℚ) : ℤ :=
  if q - ⌊q⌋ < 1/2 then ⌊q⌋
  else if 1/2 < q - ⌊q⌋ then ⌊q⌋ + 1
  else if ⌊q⌋ % 2 = 0 then ⌊q⌋ else ⌊q⌋ + 1

/-- Python `int(...)` on a float: truncation toward zero. -/
def pyTrunc (q : ℚ) : ℤ := if 0 ≤ q then ⌊q⌋ else -⌊-q⌋

/-! ### A small backtracking regex engine

Candidate states are listed in exactly the order Python's `re` backtracking
explores them, so the head of `mrun` at the leftmost matching start position
is Python's match. -/

/-- Regex abstract syntax: the constructs used by the embedded patterns. -/
inductive RE where
  | cls (p : Char → Bool)
  | lit (s : List Char)
  | litCI (s : List Char)
  | seq (a b : RE)
  | alt (a b : RE)
  | star (p : Char → Bool)
  | rep (p : Char → Bool) (lo hi : Nat)
  | opt (a : RE)
  | bnd

/-- A match state: characters consumed, previous character, remaining input. -/
abbrev MSt := Nat × Option Char × List Char

/-- All prefixes of the maximal run of `p`-characters, shortest first. -/
def stepStates (p : Char → Bool) : Option Char → List Char → List MSt
  | prev, [] => [(0, prev, [])]
  | prev, c :: cs =>
    (0, prev, c :: cs) ::
      (if p c then (stepStates p (some c) cs).map (fun s => (s.1 + 1, s.2.1, s.2.2))
       else [])

/-- Previous-character tracking after consuming `consumed`. -/
def prevOf (consumed : List Char) (prev : Option Char) : Option Char :=
  match consumed.getLast? with
  | some c => some c
  | none => prev

/-- Backtracking matcher: candidate end states in engine priority order. -/
def mrun : RE → Option Char → List Char → List MSt
  | .cls p, _, rest =>
    match rest with
    | c :: cs => if p c then [(1, some c, cs)] else []
    | [] => []
  | .lit s, prev, rest =>
    if s.isPrefixOf rest then [(s.length, prevOf s prev, rest.drop s.length)]
    else []
  | .litCI s, prev, rest =>
    let taken := rest.take s.length
    if taken.length = s.length ∧ lowerL taken = lowerL s then
      [(s.length, prevOf taken prev, rest.drop s.length)]
    else []
  | .seq a b, prev, rest =>
    (mrun a prev rest).flatMap
      (fun s => (mrun b s.2.1 s.2.2).map (fun t => (s.1 + t.1, t.2.1, t.2.2)))
  | .alt a b, prev, rest => mrun a prev rest ++ mrun b prev rest
  | .star p, prev, rest => (stepStates p prev rest).reverse
  | .rep p lo hi, prev, rest =>
    ((stepStates p prev rest).filter
      (fun s => decide (lo ≤ s.1) && decide (s.1 ≤ hi))).reverse
  | .opt a, prev, rest => mrun a prev rest ++ [(0, prev, rest)]
  | .bnd, prev, rest =>
    let wl := match prev with | some c => pyIsWord c | none => false
    let wr := match rest.head? with | some c => pyIsWord c | none => false
    if wl ≠ wr then [(0, prev, rest)] else []

/-- Greedy `+` over a character class. -/
def plusC (p : Char → Bool) : RE := .seq (.cls p) (.star p)

/-- Scan start positions left to right; return `(start, length)` of the
leftmost match, Python `re.search` style. -/
def searchOff (re : RE) : Option Char → List Char → Nat → Option (Nat × Nat)
  | prev, rest, i =>
    match mrun re prev rest with
    | s :: _ => some (i, s.1)
    | [] =>
      match rest with
      | [] => none
      | c :: cs => searchOff re (some c) cs (i + 1)

def reSearch? (re : RE) (l : List Char) : Option (Nat × Nat) :=
  searchOff re none l 0

/-- `re.search(...).group(0)` as an `Option`. -/
def reGroup0? (re : RE) (l : List Char) : Option (List Char) :=
  (reSearch? re l).map (fun m => (l.drop m.1).take m.2)

/-- Whether `re.search` finds a match. -/
def reTest (re : RE) (l : List Char) : Bool := (reSearch? re l).isSome

/-- `re.search(...).start()` as an `Option`. -/
def reIdx? (re : RE) (l : List Char) : Option Nat := (reSearch? re l).map (·.1)

/-- `re.search(...).end()` as an `Option`. -/
def reEnd? (re : RE) (l : List Char) : Option Nat :=
  (reSearch? re l).map (fun m => m.1 + m.2)

/-- `re.findall`: non-overlapping leftmost matches. -/
def findallAux (re : RE) : Nat → Option Char → List Char → List (List Char)
  | 0, _, _ => []
  | fuel + 1, prev, rest =>
    match mrun re prev rest with
    | s :: _ =>
      if s.1 = 0 then
        match rest with
        | [] => [[]]
        | c :: cs => [] :: findallAux re fuel (some c) cs
      else (rest.take s.1) :: findallAux re fuel s.2.1 s.2.2
    | [] =>
      match rest with
      | [] => []
      | c :: cs => findallAux re fuel (some c) cs

def reFindall (re : RE) (l : List Char) : List (List Char) :=
  findallAux re (l.length + 1) none l

/-- `re.split`: split on non-overlapping leftmost matches. -/
def resplitAux (re : RE) : Nat → Option Char → List Char → List Char → List (List Char)
  | 0, _, rest, acc => [acc.reverse ++ rest]
  | fuel + 1, prev, rest, acc =>
    match mrun re prev rest with
    | s :: _ =>
      if s.1 = 0 then
        match rest with
        | [] => [acc.reverse]
        | c :: cs => resplitAux re fuel (some c) cs (c :: acc)
      else acc.reverse :: resplitAux re fuel s.2.1 s.2.2 []
    | [] =>
      match rest with
      | [] => [acc.reverse]
      | c :: cs => resplitAux re fuel (some c) cs (c :: acc)

def reSplit (re : RE) (l : List Char) : List (List Char) :=
  resplitAux re (l.length + 1) none l []

/-- `re.sub(pattern, "", line)` for a `^`-anchored pattern (a pattern that
can only match at the start of the string, so at most one removal). -/
def reSubStart (re : RE) (l : List Char) : List Char :=
  match mrun re none l with
  | s :: _ => l.drop s.1
  | [] => l

def litS (s : String) : RE := .lit s.data

def litCIS (s : String) : RE := .litCI s.data

def altOf (hd : RE) (tl : List RE) : RE := tl.foldl RE.alt hd

def seqOf (hd : RE) (tl : List RE) : RE := tl.foldl RE.seq hd

/-! ### Data model (`ResumeEntities` and friends, §3 of the spec) -/

structure ContactInfo where
  name : String
  email : String
  phone : String
  linkedin : String
  github : String
  location : String
deriving DecidableEq

structure ExperienceEntry where
  title : String
  company : String
  date_range : String
  description : String
deriving DecidableEq

structure EducationEntry where
  degree : String
  institution : String
  date_range : String
  description : String
deriving DecidableEq

structure ProjectEntry where
  name : String
  description : String
  technologies : List String
deriving DecidableEq

structure FileFormatInfo where
  extension : String
  has_problematic_elements : Bool
deriving DecidableEq

/-- The structured record built by `ResumeParser._process_text`
(`file_format` is attached later by `parse_resume`; `none` until then). -/
structure ResumeData where
  contact_info : ContactInfo
  skills : List String
  experience : List ExperienceEntry
  education : List EducationEntry
  summary : String
  projects : List ProjectEntry
  certifications : List String
  full_text : String
  file_format : Option FileFormatInfo
deriving DecidableEq

/-! ### Compiled regex patterns of `ResumeParser._compile_regex_patterns` -/

def chEmail (c : Char) : Bool := pyIsWord c || c = '.' || c = '-'

/-- `[\w\.-]+@[\w\.-]+\.\w+` -/
def emailRE : RE := seqOf (plusC chEmail) [litS "@", plusC chEmail, litS ".", plusC pyIsWord]

def chSep (c : Char) : Bool := c = '-' || c = '.' || pyIsSpace c

/-- `(\+\d{1,3}[-\.\s]?)?(\(?\d{3}\)?[-\.\s]?\d{3}[-\.\s]?\d{4}|\d{10})` -/
def phoneRE : RE :=
  .seq (.opt (seqOf (litS "+") [.rep pyIsDigit 1 3, .opt (.cls chSep)]))
       (.alt (seqOf (.opt (litS "(")) [.rep pyIsDigit 3 3, .opt (litS ")"),
                .opt (.cls chSep), .rep pyIsDigit 3 3, .opt (.cls chSep), .rep pyIsDigit 4 4])
             (.rep pyIsDigit 10 10))

def chWordDash (c : Char) : Bool := pyIsWord c || c = '-'

/-- `linkedin\.com/in/[\w-]+` -/
def linkedinRE : RE := .seq (litS "linkedin.com/in/") (plusC chWordDash)

/-- `github\.com/[\w-]+` -/
def githubRE : RE := .seq (litS "github.com/") (plusC chWordDash)

/-- `education|academic|qualification` (searched on lowercased text). -/
def educationHeadRE : RE := altOf (litS "education") [litS "academic", litS "qualification"]

/-- `experience|employment|work history|career|professional`. -/
def experienceHeadRE : RE :=
  altOf (litS "experience") [litS "employment", litS "work history", litS "career", litS "professional"]

/-- `skills|expertise|proficiency|competency|technical`. -/
def skillsHeadRE : RE :=
  altOf (litS "skills") [litS "expertise", litS "proficiency", litS "competency", litS "technical"]

/-- `projects|portfolio|works`. -/
def projectsHeadRE : RE := altOf (litS "projects") [litS "portfolio", litS "works"]

/-- `summary|objective|profile|about`. -/
def summaryHeadRE : RE := altOf (litS "summary") [litS "objective", litS "profile", litS "about"]

/-- `certifications|certificates|qualifications` — note: compiled inside
`_extract_certifications`, not in `_compile_regex_patterns`. -/
def certificationsHeadRE : RE :=
  altOf (litS "certifications") [litS "certificates", litS "qualifications"]

/-- The month alternation of the date pattern, in source order (IGNORECASE). -/
def monthRE : RE :=
  altOf (litCIS "jan") [litCIS "feb", litCIS "mar", litCIS "apr", litCIS "may", litCIS "jun",
    litCIS "jul", litCIS "aug", litCIS "sep", litCIS "oct", litCIS "nov", litCIS "dec",
    litCIS "january", litCIS "february", litCIS "march", litCIS "april", litCIS "may",
    litCIS "june", litCIS "july", litCIS "august", litCIS "september", litCIS "october",
    litCIS "november", litCIS "december"]

/-- `(-|–|to)` (IGNORECASE). -/
def dashRE : RE := altOf (litS "-") [litS "–", litCIS "to"]

def wsStar : RE := .star pyIsSpace

/-- `[a-z]*` under IGNORECASE. -/
def alphaStar : RE := .star pyIsAlpha

def d4RE : RE := .rep pyIsDigit 4 4

def d12RE : RE := .rep pyIsDigit 1 2

/-- The `date_pattern` of `_compile_regex_patterns` (four alternatives:
month-name ranges, numeric `m/yyyy` ranges, year ranges, year–present). -/
def dateRE : RE :=
  altOf
    (seqOf monthRE [alphaStar, .opt (litS "."), wsStar, d4RE, wsStar, dashRE, wsStar,
      monthRE, alphaStar, .opt (litS "."), wsStar, d4RE])
    [seqOf d12RE [litS "/", d4RE, wsStar, dashRE, wsStar, d12RE, litS "/", d4RE],
     seqOf d4RE [wsStar, dashRE, wsStar, d4RE],
     seqOf d4RE [wsStar, dashRE, wsStar, altOf (litCIS "present") [litCIS "current", litCIS "now"]]]

/-- `\b<w>\b` with a literal `w`, for searching lowercased text. -/
def wordRE (w : List Char) : RE := seqOf .bnd [.lit w, .bnd]

/-- `\b<w>\b` under IGNORECASE, for searching original-case text. -/
def wordCIRE (w : List Char) : RE := seqOf .bnd [.litCI w, .bnd]

/-- `\n\s*\n`, the blank-line entry splitter. -/
def blankRE : RE := seqOf (litS "\n") [.star pyIsSpace, litS "\n"]

/-- The skills database of `ResumeParser._load_skills_database`, in source
order (the Python object is a `set`; every consumer of the parser's output
either sorts or is order-insensitive, except the order of
`ProjectEntry.technologies`, which no claim depends on). -/
def skillsDB : List String :=
  ["python", "java", "javascript", "c++", "c#", "ruby", "php", "swift", "kotlin", "go",
   "typescript", "scala", "r", "perl", "rust", "dart", "html", "css", "sql",
   "react", "angular", "vue", "django", "flask", "spring", "node.js", "express",
   "tensorflow", "pytorch", "pandas", "numpy", "scikit-learn", "keras", ".net", "laravel",
   "aws", "azure", "google cloud", "docker", "kubernetes", "jenkins", "terraform", "ansible",
   "ci/cd", "devops", "microservices", "serverless",
   "mysql", "postgresql", "mongodb", "oracle", "sql server", "sqlite", "redis", "cassandra",
   "dynamodb", "firebase",
   "git", "github", "gitlab", "bitbucket", "jira", "confluence", "slack", "trello",
   "visual studio code", "intellij", "eclipse", "photoshop", "illustrator", "figma",
   "leadership", "communication", "teamwork", "problem-solving", "critical thinking",
   "time management", "creativity", "adaptability", "project management", "agile",
   "scrum", "kanban",
   "machine learning", "deep learning", "artificial intelligence", "data science",
   "data analysis", "natural language processing", "computer vision", "big data",
   "data engineering", "data visualization", "statistics", "analytics",
   "ios", "android", "react native", "flutter", "mobile development", "app development",
   "cross-platform", "pwa",
   "rest api", "graphql", "oauth", "jwt", "web services", "soa", "mvc", "orm",
   "responsive design", "web accessibility", "ui/ux", "frontend", "backend",
   "full-stack", "testing", "qa", "security", "blockchain"]

/-! ### `ResumeParser` sub-extractors

The parser instance state that matters to the claims is whether the
dynamically-created attribute `certifications_headers` exists yet: it is
assigned only inside `_extract_certifications`, but `_extract_experience`,
`_extract_education` and `_extract_projects` read it (to build their
next-section pattern list) and `_process_text` calls them first.  The flag
`certsDefined` models this; `none` models the `AttributeError` raised when
the attribute is read before ever being assigned.  The spaCy NLP backend is
modelled as absent (`self.nlp is None`), the configuration in which every
NLP-dependent supplement is skipped. -/

def nameFromLines : List (List Char) → String
  | [] => ""
  | l :: ls =>
    let l := stripL l
    if 0 < l.length ∧ l.length < 50 ∧
        ¬ (reTest emailRE l ∨ reTest phoneRE l ∨ reTest linkedinRE l) then
      l.asString
    else nameFromLines ls

/-- `ResumeParser._extract_contact_info`. -/
def extract_contact_info (text : String) : ContactInfo :=
  let t := text.data
  { name := nameFromLines ((splitChar '\n' t).take 3)
    email := ((reGroup0? emailRE t).map List.asString).getD ""
    phone := ((reGroup0? phoneRE t).map List.asString).getD ""
    linkedin := ((reGroup0? linkedinRE t).map List.asString).getD ""
    github := ((reGroup0? githubRE t).map List.asString).getD ""
    location := "" }

/-- Minimum start offset of any of `pats` in `l` (`None` if none match). -/
def nextSectionMin (pats : List RE) (l : List Char) : Option Nat :=
  (pats.filterMap (fun p => reIdx? p l)).foldl
    (fun acc i =>
      match acc with
      | none => some i
      | some j => some (min j i))
    none

/-- `ResumeParser._extract_skills` (database matching; the spaCy noun-chunk
supplement is skipped because the NLP backend is absent). -/
def extract_skills (text : String) : List String :=
  let tl := lowerL text.data
  let window :=
    match reIdx? skillsHeadRE tl with
    | some start =>
      let rest := tl.drop (start + 10)
      match nextSectionMin [experienceHeadRE, educationHeadRE, projectsHeadRE, summaryHeadRE] rest with
      | some nxt => (tl.drop start).take (10 + nxt)
      | none => tl.drop start
    | none => []
  let window := if window = [] then tl else window
  let found := skillsDB.filter (fun sk => reTest (wordRE sk.data) window)
  sortStrs found.eraseDups

/-- The `end_idx` fold shared by the sectioned extractors: minimum of
`len(text)` and `start + first-match-offset` over the given patterns. -/
def sectionEndIdx (pats : List RE) (tlFromStart : List Char) (textLen start : Nat) : Nat :=
  pats.foldl
    (fun acc p =>
      match reIdx? p tlFromStart with
      | some i => if start + i < acc then start + i else acc
      | none => acc)
    textLen

/-- Python `s.split(sep, 1)` at the first occurrence of a character. -/
def splitOnce (l : List Char) (c : Char) : Option (List Char × List Char) :=
  (subIdx? l [c]).map (fun i => (l.take i, l.drop (i + 1)))

/-- Per-entry processing in `_extract_experience`. -/
def expEntryOf (entry : List Char) : ExperienceEntry :=
  let desc := stripL entry
  let dr :=
    match reGroup0? dateRE entry with
    | some m => (stripL m).asString
    | none => ""
  let lines := splitChar '\n' desc
  let (title, company) :=
    if 2 ≤ lines.length then
      let fl := stripL (lines.headD [])
      match splitOnce fl ',' with
      | some (a, b) => ((stripL a).asString, (stripL b).asString)
      | none =>
        match subIdx? (lowerL fl) " at ".data with
        | some i => ((stripL (fl.take i)).asString, (stripL (fl.drop (i + 4))).asString)
        | none =>
          ((fl).asString,
           if 3 ≤ lines.length then (stripL ((lines.drop 1).headD [])).asString else "")
    else ("", "")
  { title := title, company := company, date_range := dr, description := desc.asString }

/-- `ResumeParser._extract_experience`.  Reading `certifications_headers`
before `_extract_certifications` has ever run raises `AttributeError`
(modelled by `none`); that read happens as soon as an experience header was
found. -/
def extract_experience (certsDefined : Bool) (text : String) : Option (List ExperienceEntry) :=
  let t := text.data
  let tl := lowerL t
  match reIdx? experienceHeadRE tl with
  | none => some []
  | some start =>
    if certsDefined then
      let endIdx := sectionEndIdx [educationHeadRE, skillsHeadRE, projectsHeadRE, certificationsHeadRE]
        (tl.drop start) t.length start
      let expText := (t.drop start).take (endIdx - start)
      let entries := reSplit blankRE expText
      some ((entries.drop 1).filterMap
        (fun e => if (stripL e).length < 10 then none else some (expEntryOf e)))
    else none

def degreeKeywords : List String :=
  ["bachelor", "master", "phd", "doctorate", "bs", "ba", "ms", "ma", "mba"]

def hasDegreeKw (l : List Char) : Bool :=
  degreeKeywords.any (fun kw => containsSub (lowerL l) kw.data)

def hasInstKw (l : List Char) : Bool :=
  containsSub (lowerL l) "university".data || containsSub (lowerL l) "college".data

/-- Per-entry processing in `_extract_education`.  When the entry is a
single line containing a degree keyword, the Python condition
`(len(lines) > 1 and "university" in lines[1].lower()) or "college" in lines[1].lower()`
evaluates `lines[1]` and raises `IndexError` (modelled by `none`). -/
def eduEntryOf (entry : List Char) : Option EducationEntry :=
  let desc := stripL entry
  let dr :=
    match reGroup0? dateRE entry with
    | some m => (stripL m).asString
    | none => ""
  let lines := splitChar '\n' desc
  match (lines.take 2).find? hasDegreeKw with
  | some dl =>
    if lines.length = 1 then none
    else
      let l1 := (lines.drop 1).headD []
      let inst := if hasInstKw l1 then (stripL l1).asString else ""
      some { degree := (stripL dl).asString, institution := inst,
             date_range := dr, description := desc.asString }
  | none =>
    let inst :=
      match (lines.take 2).find? hasInstKw with
      | some l => (stripL l).asString
      | none => ""
    some { degree := "", institution := inst, date_range := dr, description := desc.asString }

def eduFold : List (List Char) → Option (List EducationEntry)
  | [] => some []
  | e :: es =>
    if (stripL e).length < 10 then eduFold es
    else
      match eduEntryOf e with
      | none => none
      | some ed => (eduFold es).map (fun rest => ed :: rest)

/-- `ResumeParser._extract_education` (same `certifications_headers` hazard
as `_extract_experience`). -/
def extract_education (certsDefined : Bool) (text : String) : Option (List EducationEntry) :=
  let t := text.data
  let tl := lowerL t
  match reIdx? educationHeadRE tl with
  | none => some []
  | some start =>
    if certsDefined then
      let endIdx := sectionEndIdx [experienceHeadRE, skillsHeadRE, projectsHeadRE, certificationsHeadRE]
        (tl.drop start) t.length start
      let eduText := (t.drop start).take (endIdx - start)
      let entries := reSplit blankRE eduText
      eduFold (entries.drop 1)
    else none

/-- `ResumeParser._extract_summary`. -/
def extract_summary (text : String) : String :=
  let t := text.data
  let tl := lowerL t
  match reEnd? summaryHeadRE tl with
  | none => ""
  | some start =>
    let endIdx := sectionEndIdx [experienceHeadRE, educationHeadRE, skillsHeadRE, projectsHeadRE]
      (tl.drop start) t.length start
    let summ := stripL ((t.drop start).take (endIdx - start))
    if 500 < summ.length then
      let pe := pyFind summ "\n\n".data
      if 0 < pe then (stripL (summ.take pe.toNat)).asString else summ.asString
    else summ.asString

/-- Per-entry processing in `_extract_projects` (technologies listed in
`skillsDB` order; the Python set-iteration order is unspecified). -/
def projEntryOf (entry : List Char) : ProjectEntry :=
  let desc := stripL entry
  let lines := splitChar '\n' desc
  { name := (stripL (lines.headD [])).asString
    description := desc.asString
    technologies := skillsDB.filter (fun sk => reTest (wordCIRE sk.data) entry) }

/-- `ResumeParser._extract_projects` (same `certifications_headers` hazard). -/
def extract_projects (certsDefined : Bool) (text : String) : Option (List ProjectEntry) :=
  let t := text.data
  let tl := lowerL t
  match reIdx? projectsHeadRE tl with
  | none => some []
  | some start =>
    if certsDefined then
      let endIdx := sectionEndIdx [experienceHeadRE, educationHeadRE, skillsHeadRE, certificationsHeadRE]
        (tl.drop start) t.length start
      let projText := (t.drop start).take (endIdx - start)
      let entries := reSplit blankRE projText
      some ((entries.drop 1).filterMap
        (fun e => if (stripL e).length < 10 then none else some (projEntryOf e)))
    else none

def bulletChars : List Char :=
  ['•', '-', '*', '■', '●', '○', '►', '▶', '⦿', '⚫', '⚪', '✓', '✔', '✕', '✖', '✗', '✘']

/-- `^[\•\-\*\■\●\○\►\▶\⦿\⚫\⚪\✓\✔\✕\✖\✗\✘]\s*` -/
def bulletStripRE : RE := .seq (.cls (fun c => bulletChars.contains c)) (.star pyIsSpace)

/-- `^\d+[\.\)]\s*` -/
def numStripRE : RE :=
  seqOf (plusC pyIsDigit) [.cls (fun c => c = '.' || c = ')'), .star pyIsSpace]

/-- `ResumeParser._extract_certifications` (this is the method that assigns
`certifications_headers`). -/
def extract_certifications (text : String) : List String :=
  let t := text.data
  let tl := lowerL t
  match reIdx? certificationsHeadRE tl with
  | none => []
  | some start =>
    let endIdx := sectionEndIdx [experienceHeadRE, educationHeadRE, skillsHeadRE, projectsHeadRE]
      (tl.drop start) t.length start
    let certText := (t.drop start).take (endIdx - start)
    let lines := splitChar '\n' certText
    (lines.drop 1).filterMap (fun l0 =>
      let l1 := stripL l0
      let l2 := reSubStart bulletStripRE l1
      let l3 := reSubStart numStripRE l2
      if 5 < l3.length ∧ l3.length < 100 then some l3.asString else none)

/-- `ResumeParser._process_text`: builds the result dictionary, calling the
sub-extractors in source order; an exception in any of them propagates
(`none`). -/
def processText (certsDefined : Bool) (text : String) : Option ResumeData :=
  let ci := extract_contact_info text
  let sks := extract_skills text
  match extract_experience certsDefined text with
  | none => none
  | some exps =>
    match extract_education certsDefined text with
    | none => none
    | some edus =>
      let summ := extract_summary text
      match extract_projects certsDefined text with
      | none => none
      | some projs =>
        some { contact_info := ci, skills := sks, experience := exps, education := edus,
               summary := summ, projects := projs,
               certifications := extract_certifications text,
               full_text := text, file_format := none }

/-! ### `ATSChecker` (`src/models/ats_checker.py`)

Platform rules are passed as a value of `PlatformRules`; the default rule set
(`_load_default_rules`) is `taleoRules`.  The `formatting_preferences`
mapping has the six boolean keys of the default configuration, so
`len(formatting_prefs) == 6` in the formatting deduction. -/

structure FormattingPrefs where
  bullet_points : Bool
  tables : Bool
  images : Bool
  headers_footers : Bool
  columns : Bool
  fancy_fonts : Bool
deriving DecidableEq

structure ParsingRules where
  preferred_format : String
  section_headings : List String
  keywords_importance : String
  formatting_preferences : FormattingPrefs
  file_preferences : List String
  recommended_fonts : List String
deriving DecidableEq

structure PlatformRules where
  name : String
  parsing_rules : ParsingRules
deriving DecidableEq

/-- The built-in default platform of `_load_default_rules`. -/
def taleoRules : PlatformRules :=
  { name := "Taleo"
    parsing_rules :=
      { preferred_format := "chronological"
        section_headings := ["Education", "Experience", "Skills", "Projects"]
        keywords_importance := "high"
        formatting_preferences :=
          { bullet_points := true, tables := false, images := false,
            headers_footers := false, columns := false, fancy_fonts := false }
        file_preferences := ["pdf", "docx", "txt"]
        recommended_fonts := ["Arial", "Times New Roman", "Calibri"] } }

def lstripDots (l : List Char) : List Char := l.dropWhile (· = '.')

/-- Python `list.index` as an `Option` (first position of `x`). -/
def idxOf? (x : String) : List String → Option Nat
  | [] => none
  | y :: ys => if y = x then some 0 else (idxOf? x ys).map (· + 1)

/-- The numeric tail of `_check_file_format`: position-based score for a
preferred format (first place 100, last place 60, −30 for problematic
elements, truncated), otherwise 50 for a common and 20 for an uncommon
format. -/
def fileScoreOf (pos? : Option Nat) (len : Nat) (prob : Bool) (common : Bool) : ℤ :=
  match pos? with
  | some pos =>
    let score : ℚ := 100 - 40 * (pos : ℚ) / max 1 ((len : ℚ) - 1)
    pyTrunc (if prob then score - 30 else score)
  | none => if common then 50 else 20

/-- `ATSChecker._check_file_format`. -/
def checkFileFormat (ff : Option FileFormatInfo) (preferred : List String) : ℤ :=
  match ff with
  | none => 50
  | some f =>
    let ext := (lstripDots (lowerL f.extension.data)).asString
    fileScoreOf (idxOf? ext preferred) preferred.length f.has_problematic_elements
      (ext == "pdf" || ext == "docx" || ext == "txt")

def fmtMsgTables : String := "Contains tables or complex formatting that may confuse ATS"

def fmtMsgImages : String := "Contains images or graphics that ATS cannot parse"

def fmtMsgBullets : String := "Lacks bullet points for better readability and parsing"

def fmtMsgColumns : String := "May contain multi-column layout which can confuse ATS parsing"

def hasProblematic (rd : ResumeData) : Bool :=
  match rd.file_format with
  | some f => f.has_problematic_elements
  | none => false

/-- The `bullet_patterns` list of `_check_formatting` (each pattern is a
single literal character, so the search loop is containment of any). -/
def atsBulletChars : List Char :=
  ['•', '·', '‣', '⁃', '⦿', '⦾', '-', '*', '✓', '✔', '➢', '➤']

def hasBulletChar (l : List Char) : Bool := l.any (fun c => atsBulletChars.contains c)

def bumpNat (k : Nat) : List (Nat × Nat) → List (Nat × Nat)
  | [] => [(k, 1)]
  | (x, n) :: tl => if x = k then (x, n + 1) :: tl else (x, n) :: bumpNat k tl

/-- Indentation histogram of the non-blank lines, insertion ordered. -/
def indentHist (lines : List (List Char)) : List (Nat × Nat) :=
  lines.foldl
    (fun acc line =>
      if (stripL line).length = 0 then acc
      else bumpNat (line.length - (lstripL line).length) acc)
    []

def natPairGt (a b : Nat × Nat) : Bool :=
  decide (b.1 < a.1) || (decide (a.1 = b.1) && decide (b.2 < a.2))

def insDescN (x : Nat × Nat) : List (Nat × Nat) → List (Nat × Nat)
  | [] => [x]
  | y :: ys => if natPairGt x y then x :: y :: ys else y :: insDescN x ys

def sortNatPairsDesc (l : List (Nat × Nat)) : List (Nat × Nat) := l.foldr insDescN []

/-- The multi-column approximation of `_check_formatting` (threshold `0.15`
modelled as the exact rational `3/20`; the Python float `0.15` is smaller
by `2⁻⁵⁶`-scale roundoff, which no concrete value in this development
straddles). -/
def multiColumnSignal (fullText : List Char) : Bool :=
  let lines := splitChar '\n' fullText
  if 10 < lines.length then
    let common := sortNatPairsDesc ((indentHist lines).map (fun p => (p.2, p.1)))
    if 3 ≤ common.length then
      match common.drop 1 with
      | second :: _ => decide ((lines.length : ℚ) * (3/20) < (second.1 : ℚ))
      | [] => false
    else false
  else false

/-- The issues list of `_check_formatting`, in source order. -/
def fmtIssuesOf (rd : ResumeData) (prefs : FormattingPrefs) : List String :=
  let ft := rd.full_text.data
  (if hasProblematic rd ∧ ¬ prefs.tables then [fmtMsgTables] else []) ++
  (if hasProblematic rd ∧ ¬ prefs.images then [fmtMsgImages] else []) ++
  (if prefs.bullet_points ∧ ¬ (ft ≠ [] ∧ hasBulletChar ft) then [fmtMsgBullets] else []) ++
  (if ¬ prefs.columns ∧ ft ≠ [] ∧ multiColumnSignal ft then [fmtMsgColumns] else [])

/-- The numeric tail of `_check_formatting`: 100 for a clean resume, else
`int(max(0, 100 − n·100/(len(formatting_prefs)+1)))` with the six-key
default preference mapping. -/
def fmtScoreOf (n : Nat) : ℤ :=
  if n = 0 then 100 else pyTrunc (max 0 (100 - (n : ℚ) * (100 / (6 + 1))))

/-- `ATSChecker._check_formatting`. -/
def checkFormatting (rd : ResumeData) (prefs : FormattingPrefs) : ℤ × List String :=
  (fmtScoreOf (fmtIssuesOf rd prefs).length, fmtIssuesOf rd prefs)

def stMsgContact : String := "Missing or incomplete contact information"

def stMsgExp : String := "Missing work experience section"

def stMsgEdu : String := "Missing education section"

def stMsgSkills : String := "Missing skills section"

def stMsgChrono : String :=
  "For chronological format, work experience should come before skills section"

/-- `experience|employment|work history` (the chronological-order check). -/
def chronoExpRE : RE := altOf (litS "experience") [litS "employment", litS "work history"]

/-- `skills|expertise|competencies` (the chronological-order check). -/
def chronoSkillsRE : RE := altOf (litS "skills") [litS "expertise", litS "competencies"]

/-- The `found_sections` count of `_check_structure` (contact with a name,
summary, experience, education, skills). -/
def structFound (rd : ResumeData) : Nat :=
  (if rd.contact_info.name ≠ "" then 1 else 0) + (if rd.summary ≠ "" then 1 else 0) +
  (if rd.experience ≠ [] then 1 else 0) + (if rd.education ≠ [] then 1 else 0) +
  (if rd.skills ≠ [] then 1 else 0)

/-- The feedback list of `_check_structure`, in source order (missing
sections, then the chronological-order warning; a header match at text
position 0 is excluded by the source's `> 0` comparisons). -/
def structFeedback (rd : ResumeData) (preferred_format : String) : List String :=
  (if ¬ rd.contact_info.name ≠ "" then [stMsgContact] else []) ++
  (if ¬ rd.experience ≠ [] then [stMsgExp] else []) ++
  (if ¬ rd.education ≠ [] then [stMsgEdu] else []) ++
  (if ¬ rd.skills ≠ [] then [stMsgSkills] else []) ++
  (if preferred_format = "chronological" then
    let ftl := lowerL rd.full_text.data
    let e : ℤ := ((reIdx? chronoExpRE ftl).map Int.ofNat).getD (-1)
    let s : ℤ := ((reIdx? chronoSkillsRE ftl).map Int.ofNat).getD (-1)
    if 0 < e ∧ 0 < s ∧ s < e then [stMsgChrono] else []
   else [])

/-- The numeric tail of `_check_structure`:
`int(max(0, found/5·100 − min(40, 10·feedback_count)))`. -/
def stScoreOf (found nfb : Nat) : ℤ :=
  pyTrunc (max 0 ((found : ℚ) / 5 * 100 - min 40 (10 * (nfb : ℚ))))

/-- `ATSChecker._check_structure` (its `preferred_sections` argument is
unused by the Python body and is omitted). -/
def checkStructure (rd : ResumeData) (preferred_format : String) : ℤ × List String :=
  (stScoreOf (structFound rd) (structFeedback rd preferred_format).length,
   structFeedback rd preferred_format)

/-- The stop-word set of `ATSChecker._extract_keywords` (the source set
literal contains repeated members; harmless for membership). -/
def atsStopWords : List String :=
  ["a", "an", "the", "and", "or", "but", "if", "because", "as", "what", "when",
   "where", "how", "all", "any", "both", "each", "few", "more", "most", "some",
   "such", "no", "nor", "not", "only", "own", "same", "so", "than", "too", "very",
   "s", "t", "can", "will", "just", "don", "should", "now", "to", "from", "by",
   "for", "with", "about", "against", "between", "into", "through", "during",
   "before", "after", "above", "below", "up", "down", "in", "out", "on", "off",
   "over", "under", "again", "further", "then", "once", "here", "there", "why",
   "other"]

/-- The `common_skills` list of `ATSChecker._extract_keywords`, in source
order. -/
def atsCommonSkills : List String :=
  ["python", "java", "javascript", "react", "angular", "vue", "node.js", "sql", "nosql",
   "aws", "azure", "cloud", "docker", "kubernetes", "ci/cd", "devops", "machine learning",
   "data science", "data analysis", "artificial intelligence", "deep learning",
   "project management", "agile", "scrum", "team lead", "leadership", "communication",
   "problem solving", "critical thinking", "collaboration", "customer service",
   "database", "front-end", "back-end", "full-stack", "testing", "qa", "ux", "ui",
   "product management", "mobile development", "android", "ios", "react native",
   "flask", "django", "spring boot", "mongodb", "postgresql", "mysql", "git",
   "linux", "unix", "networking", "security", "api", "rest", "graphql", "html", "css",
   "sass", "less", "typescript", "golang", "rust", "c++", "c#", ".net"]

/-- The token pattern `\b[a-zA-Z][a-zA-Z0-9+#\-.]*[a-zA-Z0-9]\b`. -/
def chToken (c : Char) : Bool := pyIsAlnum c || c = '+' || c = '#' || c = '-' || c = '.'

def tokenRE : RE := seqOf .bnd [.cls pyIsAlpha, .star chToken, .cls pyIsAlnum, .bnd]

/-- `ATSChecker._extract_keywords`: stop-word-filtered tokens ranked by
`(frequency, word)` descending, minus words contained in a matched skill
phrase, plus the matched skill phrases (substring match), deduplicated,
first 20. -/
def atsExtractKeywords (text : String) : List String :=
  let t := lowerL text.data
  let words := (reFindall tokenRE t).map List.asString
  let filtered := words.filter (fun w => ¬ atsStopWords.contains w ∧ 2 < w.length)
  let freq := tally filtered
  let phrases := atsCommonSkills.filter (fun sk => containsSub t sk.data)
  let sortedW := sortPairsDesc (freq.map (fun p => (p.2, p.1)))
  let topWords := (sortedW.take 15).filterMap
    (fun p => if phrases.any (fun ph => containsSub ph.data p.2.data) then none else some p.2)
  (topWords ++ phrases).eraseDups.take 20

/-- The resume text used for keyword matching (full text, else the joined
summary/descriptions/skills fallback). -/
def atsResumeText (rd : ResumeData) : String :=
  if rd.full_text ≠ "" then rd.full_text
  else
    joinSepS " "
      [rd.summary, joinSepS " " (rd.experience.map (·.description)), joinSepS " " rd.skills]

/-- The platform keyword-importance modifier of `_check_keyword_match`
(`high` penalises percentages below 30 by `×0.7`, `medium` is untouched,
every other value — i.e. `low` — boosts percentages below 50 via
`×0.8 + 20`). -/
def applyImportance (imp : String) (pct : ℚ) : ℚ :=
  if imp = "high" then (if pct < 30 then pct * (7/10) else pct)
  else if imp = "medium" then pct
  else (if pct < 50 then pct * (8/10) + 20 else pct)

/-- Whether one extracted job keyword is found whole-word in the (lowered)
resume text. -/
def kwFound (rd : ResumeData) (kw : String) : Bool :=
  reTest (wordRE (lowerL kw.data)) (lowerL (atsResumeText rd).data)

/-- The numeric tail of `_check_keyword_match`: the default 50 when no
keyword was extracted (the `n = 0` case), otherwise the importance-modified
match percentage, truncated. -/
def kwScoreOf (m n : Nat) (imp : String) : ℤ :=
  if n = 0 then 50
  else pyTrunc (applyImportance imp ((m : ℚ) / (n : ℚ) * 100))

/-- `ATSChecker._check_keyword_match`: returns
`(score, matching_keywords, missing_keywords)`. -/
def checkKeywordMatch (rd : ResumeData) (jd : String) (imp : String) :
    ℤ × List String × List String :=
  let jobKeywords := atsExtractKeywords jd
  let matching := jobKeywords.filter (kwFound rd)
  let missing := jobKeywords.filter (fun kw => ¬ kwFound rd kw)
  (kwScoreOf matching.length jobKeywords.length imp, matching, missing)

/-- The detailed sub-scores dictionary (`structureScore` is the Python key
`"structure"`, renamed because `structure` is a Lean keyword). -/
structure DetailedScores where
  keyword_match : ℤ
  formatting : ℤ
  structureScore : ℤ
  file_type : ℤ
deriving DecidableEq

structure KeywordMatchReport where
  score : ℤ
  matching_keywords : List String
  missing_keywords : List String
deriving DecidableEq

/-- The result dictionary of `ATSChecker.analyze_resume`. -/
structure AnalysisResult where
  ats_platform : String
  compatibility_score : ℤ
  keyword_match : KeywordMatchReport
  formatting_issues : List String
  structure_feedback : List String
  improvement_suggestions : List String
  detailed_scores : DetailedScores
deriving DecidableEq

/-- Python truthiness of the optional `job_description` argument: present
and a nonempty string (a whitespace-only string is truthy). -/
def jdTruthy : Option String → Bool
  | none => false
  | some s => s ≠ ""

/-- The weight dictionary of `analyze_resume`:
`{keyword_match, formatting, structure, file_type}`. -/
def atsWeights (hasJD : Bool) : ℚ × ℚ × ℚ × ℚ :=
  if hasJD then (4/10, 3/10, 2/10, 1/10) else (0, 5/10, 3/10, 2/10)

/-- The combination step of `analyze_resume`: weighted sum of the four
sub-scores, divided by the weight total in the no-job-description branch,
then Python-`round`ed. -/
def combineScores (hasJD : Bool) (kw fmt st ft : ℤ) : ℤ :=
  let w := atsWeights hasJD
  let overall : ℚ := (kw : ℚ) * w.1 + (fmt : ℚ) * w.2.1 + (st : ℚ) * w.2.2.1 + (ft : ℚ) * w.2.2.2
  let overall := if ¬ hasJD then overall / (w.1 + w.2.1 + w.2.2.1 + w.2.2.2) else overall
  pyRound overall

def sugPositive : String :=
  "Your resume appears to be well-optimized for ATS systems. Continue to tailor it for specific job descriptions."

def sugGeneral : String :=
  "Ensure your resume has clear section headings and concise bullet points."

def sugChrono : String :=
  "Use a chronological format with your most recent experience first."

def commaJoin (l : List String) : String := joinSepS ", " l

/-- The missing-keywords suggestion string. -/
def sugAddKeywords (missing : List String) : String :=
  "Add these keywords from the job description: " ++ commaJoin (missing.take 5)

/-- The preferred-file-format suggestion string (the two adjacent f-strings
of the source). -/
def sugFileFormat (prefs : List String) : String :=
  "Use a preferred file format: " ++
    (upperS (prefs.headD "") ++
      (" (other acceptable formats: " ++ (commaJoin ((prefs.drop 1).map upperS) ++ ").")))

/-- One formatting-issue restatement. -/
def sugFixIssue (i : String) : String := "Fix formatting issue: " ++ i

/-- The recommended-fonts suggestion string. -/
def sugFonts (fonts : List String) : String :=
  "Use ATS-friendly fonts: " ++ commaJoin fonts

/-- The section-order suggestion string. -/
def sugHeaders (secs : List String) : String :=
  "Use standard section headers in this order: " ++ commaJoin secs

/-- `ATSChecker._generate_suggestions`. -/
def generateSuggestions (d : DetailedScores) (missing fmtIssues stFeedback : List String)
    (rules : PlatformRules) : List String :=
  let pr := rules.parsing_rules
  let s1 : List String :=
    if d.keyword_match < 60 ∧ missing ≠ [] then [sugAddKeywords missing] else []
  let s2 : List String :=
    if d.file_type < 70 then [sugFileFormat pr.file_preferences] else []
  let s3 : List String :=
    if d.formatting < 70 then
      (fmtIssues.map sugFixIssue) ++ [sugFonts pr.recommended_fonts]
    else []
  let s4 : List String :=
    if d.structureScore < 70 then stFeedback ++ [sugHeaders pr.section_headings] else []
  let s5 := s1 ++ s2 ++ s3 ++ s4 ++ [sugGeneral] ++
    (if pr.preferred_format = "chronological" then [sugChrono] else [])
  if s5 = [] then [sugPositive] else s5

/-- `ATSChecker.analyze_resume` with the platform rule set already
resolved (name → rules lookup and default fallback are configuration glue
outside these claims). -/
def analyzeResume (rd : ResumeData) (jd : Option String) (rules : PlatformRules) :
    AnalysisResult :=
  let pr := rules.parsing_rules
  let ftScore := checkFileFormat rd.file_format pr.file_preferences
  let fmt := checkFormatting rd pr.formatting_preferences
  let st := checkStructure rd pr.preferred_format
  let hasJD := jdTruthy jd
  let kw := if hasJD then checkKeywordMatch rd (jd.getD "") pr.keywords_importance
            else (0, [], [])
  let d : DetailedScores :=
    { keyword_match := kw.1, formatting := fmt.1, structureScore := st.1, file_type := ftScore }
  { ats_platform := rules.name
    compatibility_score := combineScores hasJD kw.1 fmt.1 st.1 ftScore
    keyword_match :=
      { score := kw.1, matching_keywords := kw.2.1, missing_keywords := kw.2.2 }
    formatting_issues := fmt.2
    structure_feedback := st.2
    improvement_suggestions := generateSuggestions d kw.2.2 fmt.2 st.2 rules
    detailed_scores := d }

/-! ### `KeywordMatcher` (`src/models/keyword_matcher.py`)

The semantic-similarity backend (`_calculate_semantic_similarity`:
sentence-transformer or TF-IDF cosine, scaled to a 0–100 percentage) and
the key-requirement ranker (`extract_key_requirements`: KeyBERT or TF-IDF)
are external machine-learning computations; they are abstracted as explicit
function parameters `sem` and `keyReq`, applied exactly where the Python
code calls them.  The empty-text short-circuit of
`_calculate_semantic_similarity` is part of the embedded code
(`calcSemSim`). -/

/-- An apostrophe, built from its code point to keep source text plain. -/
def apoS : String := String.mk [Char.ofNat 39]

/-- Helper for contraction stop words: `ap "you" "re"` is the word
you-apostrophe-re. -/
def ap (a b : String) : String := a ++ apoS ++ b

/-- The stop-word set of `KeywordMatcher.extract_keywords`, in source
order. -/
def kmStopWords : List String :=
  ["a", "an", "the", "and", "or", "but", "if", "because", "as", "what",
   "when", "where", "how", "all", "any", "both", "each", "few", "more",
   "most", "other", "some", "such", "no", "nor", "not", "only", "own",
   "same", "so", "than", "too", "very", "s", "t", "can", "will", "just",
   "don", "should", "now", "to", "from", "with", "for", "by", "about",
   "against", "between", "into", "through", "during", "before", "after",
   "above", "below", "up", "down", "in", "out", "on", "off", "over",
   "under", "again", "further", "then", "once", "here", "there", "why",
   "this", "that", "these", "those", "i", "me", "my", "myself", "we",
   "our", "ours", "ourselves", "you", ap "you" "re", ap "you" "ve", ap "you" "ll",
   ap "you" "d", "your", "yours", "yourself", "yourselves", "he", "him",
   "his", "himself", "she", ap "she" "s", "her", "hers", "herself", "it",
   ap "it" "s", "its", "itself", "they", "them", "their", "theirs",
   "themselves", "who", "whom", "am", "is", "are", "was", "were", "be",
   "been", "being", "have", "has", "had", "having", "do", "does", "did",
   "doing", "would", "should", "could", "ought", ap "i" "m", ap "i" "ve",
   ap "i" "ll", ap "i" "d", ap "we" "re", ap "we" "ve", ap "we" "ll", ap "we" "d",
   ap "he" "s", ap "he" "d", ap "she" "ll", ap "she" "d", ap "it" "ll",
   ap "they" "re", ap "they" "ve", ap "they" "ll", ap "they" "d", ap "isn" "t",
   ap "aren" "t", ap "wasn" "t", ap "weren" "t", ap "hasn" "t", ap "haven" "t",
   ap "hadn" "t", ap "doesn" "t", ap "don" "t", ap "didn" "t", ap "won" "t",
   ap "wouldn" "t", ap "shan" "t", ap "shouldn" "t", ap "can" "t", "cannot",
   ap "couldn" "t", ap "mustn" "t", ap "let" "s", ap "that" "s", ap "there" "s"]

/-- The `common_skills` list of `KeywordMatcher.extract_keywords`, in
source order. -/
def kmCommonSkills : List String :=
  ["python", "java", "javascript", "react", "angular", "vue", "node.js", "sql", "nosql",
   "aws", "azure", "cloud", "docker", "kubernetes", "ci/cd", "devops", "machine learning",
   "data science", "data analysis", "artificial intelligence", "deep learning",
   "project management", "agile", "scrum", "team lead", "leadership", "communication",
   "problem solving", "critical thinking", "collaboration", "customer service",
   "database", "front-end", "back-end", "full-stack", "testing", "qa", "ux", "ui",
   "product management", "mobile development", "android", "ios", "react native",
   "flask", "django", "spring boot", "mongodb", "postgresql", "mysql", "git",
   "linux", "unix", "networking", "security", "api", "rest", "graphql", "html", "css",
   "sass", "less", "typescript", "golang", "rust", "c++", "c#", ".net", "ruby",
   "php", "laravel", "symfony", "wordpress", "drupal", "joomla", "magento",
   "shopify", "woocommerce", "e-commerce", "seo", "sem", "digital marketing",
   "content marketing", "social media", "email marketing", "crm", "salesforce",
   "hubspot", "marketo", "adobe", "photoshop", "illustrator", "indesign",
   "after effects", "premiere pro", "figma", "sketch", "invision", "wireframing",
   "prototyping", "responsive design", "mobile first", "web design",
   "graphic design", "user research", "data visualization", "tableau", "power bi",
   "excel", "vba", "microsoft office", "accounting", "finance", "analytics",
   "reporting", "blockchain", "cryptocurrency", "smart contracts", "solidity",
   "ethereum", "information security", "cyber security", "penetration testing",
   "vulnerability assessment", "risk management", "compliance", "gdpr",
   "hipaa", "sox", "iso27001", "itil", "service management", "operations",
   "supply chain", "logistics", "inventory management", "procurement",
   "negotiation", "vendor management", "relationship management",
   "stakeholder management", "team building", "mentoring", "coaching",
   "talent acquisition", "recruitment", "onboarding", "training"]

/-- `KeywordMatcher.extract_keywords`: the Python result is a `set`;
it is modelled canonically as its sorted duplicate-free element list (every
consumer takes cardinalities, set operations, or sorts). -/
def kmExtractKeywords (text : String) : List String :=
  let t := lowerL text.data
  let words := (reFindall tokenRE t).map List.asString
  let filtered := words.filter (fun w => ¬ kmStopWords.contains w ∧ 2 < w.length)
  let skillMatches := kmCommonSkills.filter (fun sk => reTest (wordRE sk.data) t)
  sortStrs (filtered ++ skillMatches).eraseDups

def setInter (a b : List String) : List String := a.filter (fun x => b.contains x)

def setDiff (a b : List String) : List String := a.filter (fun x => ¬ b.contains x)

/-- `KeywordMatcher._calculate_semantic_similarity`: `0` for an empty
operand, otherwise the (abstracted) backend percentage. -/
def calcSemSim (sem : String → String → ℚ) (t1 t2 : String) : ℚ :=
  if t1 = "" ∨ t2 = "" then 0 else sem t1 t2

/-- Python `round(x, 2)` (ties to even at two decimals). -/
def pyRound2 (q : ℚ) : ℚ := (pyRound (q * 100) : ℚ) / 100

/-- The result dictionary of `KeywordMatcher.match_keywords`
(`keyword_match_overlap` is the Python key for the keyword-overlap
percentage). -/
structure MatchKeywordsResult where
  skill_match_percentage : ℤ
  semantic_similarity : ℚ
  keyword_match_overlap : ℚ
  matching_keywords : List String
  missing_keywords : List String
  resume_unique_keywords : List String

/-- The keyword-overlap percentage of `match_keywords`:
`len(common) / max(1, len(job_keywords)) × 100`. -/
def overlapPct (nCommon nJob : Nat) : ℚ :=
  (nCommon : ℚ) / max 1 ((nJob : ℚ)) * 100

/-- The skill-match combination of `match_keywords`:
`0.7·semantic_similarity + 0.3·keyword_overlap`, rounded. -/
def skillPctOf (semv overlap : ℚ) : ℤ := pyRound ((7/10) * semv + (3/10) * overlap)

/-- `KeywordMatcher.match_keywords`. -/
def matchKeywords (sem : String → String → ℚ) (resume_text jd : String) :
    MatchKeywordsResult :=
  let jobK := kmExtractKeywords jd
  let resK := kmExtractKeywords resume_text
  let common := setInter resK jobK
  let missing := setDiff jobK resK
  let semv := calcSemSim sem resume_text jd
  let overlap := overlapPct common.length jobK.length
  { skill_match_percentage := skillPctOf semv overlap
    semantic_similarity := pyRound2 semv
    keyword_match_overlap := pyRound2 overlap
    matching_keywords := sortStrs common
    missing_keywords := sortStrs missing
    resume_unique_keywords := sortStrs (setDiff resK jobK) }

/-- The result dictionary of `KeywordMatcher.analyze_skill_match`
(the spec's `MatchReport`). -/
structure MatchAnalysis where
  overall_match_percentage : ℤ
  skill_match_percentage : ℤ
  experience_match_percentage : ℤ
  education_match_percentage : ℤ
  skills_match_percentage : ℤ
  key_requirements : List String
  strong_matches : List String
  key_gaps : List String
  matching_keywords : List String
  missing_keywords : List String
  resume_unique_keywords : List String

/-- The resume-text fallback of `analyze_skill_match` (five joined parts). -/
def kmResumeText (rd : ResumeData) : String :=
  if rd.full_text ≠ "" then rd.full_text
  else
    joinSepS " "
      [rd.summary,
       joinSepS " " (rd.experience.map (·.description)),
       joinSepS " " rd.skills,
       joinSepS " " (rd.education.map (·.description)),
       joinSepS " " (rd.projects.map (·.description))]

def expTextOf (rd : ResumeData) : String :=
  joinSepS " " (rd.experience.map (fun e => e.title ++ " " ++ e.company ++ " " ++ e.description))

def eduTextOf (rd : ResumeData) : String :=
  joinSepS " " (rd.education.map (fun e => e.degree ++ " " ++ e.institution ++ " " ++ e.description))

def skillsTextOf (rd : ResumeData) : String := joinSepS " " rd.skills

/-- The weighted overall combination of `analyze_skill_match`:
`round(0.45·skill_match_percentage + 0.25·experience + 0.20·skills + 0.10·education)`. -/
def overallOf (skillPct : ℤ) (expM skM eduM : ℚ) : ℤ :=
  pyRound ((45/100) * (skillPct : ℚ) + (25/100) * expM + (20/100) * skM + (10/100) * eduM)

/-- `KeywordMatcher.analyze_skill_match`. -/
def analyzeSkillMatch (sem : String → String → ℚ) (keyReq : String → List String)
    (rd : ResumeData) (jd : String) : MatchAnalysis :=
  let rtext := kmResumeText rd
  let mk := matchKeywords sem rtext jd
  let reqs := keyReq jd
  let expM := calcSemSim sem (expTextOf rd) jd
  let eduM := calcSemSim sem (eduTextOf rd) jd
  let skM := calcSemSim sem (skillsTextOf rd) jd
  let overall := overallOf mk.skill_match_percentage expM skM eduM
  let strong := mk.matching_keywords.take 5
  { overall_match_percentage := overall
    skill_match_percentage := mk.skill_match_percentage
    experience_match_percentage := pyRound expM
    education_match_percentage := pyRound eduM
    skills_match_percentage := pyRound skM
    key_requirements := reqs
    strong_matches := strong
    key_gaps := (reqs.filter (fun r => ¬ strong.contains r)).take 5
    matching_keywords := mk.matching_keywords
    missing_keywords := mk.missing_keywords
    resume_unique_keywords := mk.resume_unique_keywords }

/-! ### `AnalyzerController.analyze_resume`, step 3 and the score record
(lines 101–108 and 130 of `src/controllers/analyzer_controller.py`) -/

/-- Step 3 of the controller: the match analysis runs only when a truthy
job description was supplied; otherwise `keyword_analysis` stays `None`. -/
def controllerKeywordAnalysis (sem : String → String → ℚ) (keyReq : String → List String)
    (rd : ResumeData) (jd : Option String) : Option MatchAnalysis :=
  if jdTruthy jd then some (analyzeSkillMatch sem keyReq rd (jd.getD "")) else none

/-- The `scores.overall_match` entry of the controller result:
`keyword_analysis.get("overall_match_percentage", 0) if keyword_analysis else None`. -/
def controllerOverallMatch (sem : String → String → ℚ) (keyReq : String → List String)
    (rd : ResumeData) (jd : Option String) : Option ℤ :=
  (controllerKeywordAnalysis sem keyReq rd jd).map (·.overall_match_percentage)

/-! ### Spec-side formulas (for refinement comparison)

These two definitions transcribe the *claim wording*, not the source, and
are compared against the source-derived definitions in the theorems. -/

/-- Claim C5's formula for the keyword-match sub-score: match percentage
`matched/total × 100`, then the tier modifier — `high` multiplies
percentages below 30 by 0.7, `low` replaces percentages below 50 by
`pct·0.8 + 20`, `medium` leaves the percentage unchanged. -/
def specKeywordScore (matched total : Nat) (imp : String) : ℚ :=
  let pct : ℚ := (matched : ℚ) / (total : ℚ) * 100
  if imp = "high" then (if pct < 30 then pct * (7/10) else pct)
  else if imp = "low" then (if pct < 50 then pct * (8/10) + 20 else pct)
  else pct

/-- Claim C9's formula for the overall match percentage:
`round(0.45·(0.7·semantic + 0.3·overlap) + 0.25·experience + 0.20·skills + 0.10·education)`,
i.e. with the *unrounded* skill-match value inside the combination. -/
def specOverallMatch (semv overlap expM skM eduM : ℚ) : ℤ :=
  pyRound ((45/100) * ((7/10) * semv + (3/10) * overlap) +
    (25/100) * expM + (20/100) * skM + (10/100) * eduM)

/-! ### Concrete instances used by witnesses and counterexamples -/

/-- The resume text of the spec's §8 scenario (claim C2). -/
def c2text : String :=
  "John Doe\njohn@x.com\n555-123-4567\n\nExperience\nEngineer at Acme, Jan 2020 - Dec 2021\nBuilt APIs.\n\nSkills\npython, sql\n\nEducation\nBachelor of Science at State University, 2019"

/-- A resume record with every field empty. -/
def emptyRD : ResumeData :=
  { contact_info := { name := "", email := "", phone := "", linkedin := "", github := "", location := "" },
    skills := [], experience := [], education := [], summary := "",
    projects := [], certifications := [], full_text := "", file_format := none }

/-- A resume record scoring 100 on every ATS sub-score against the default
platform (all five sections present, bullet character in the text, clean
PDF, and the job keyword `python` present whole-word). -/
def rdGood : ResumeData :=
  { contact_info := { name := "John", email := "j@x.com", phone := "", linkedin := "", github := "", location := "" },
    skills := ["python"],
    experience := [{ title := "Engineer", company := "Acme", date_range := "", description := "work" }],
    education := [{ degree := "BS", institution := "State", date_range := "", description := "study" }],
    summary := "Engineer",
    projects := [], certifications := [],
    full_text := "experience\n- skills python",
    file_format := some { extension := ".pdf", has_problematic_elements := false } }

/-- A resume whose full text mentions `python` (claim C5's witness). -/
def rdW5 : ResumeData :=
  { contact_info := { name := "", email := "", phone := "", linkedin := "", github := "", location := "" },
    skills := [], experience := [], education := [], summary := "",
    projects := [], certifications := [], full_text := "I know python.",
    file_format := none }

/-- A resume whose full text is the single word `x` (claim C9's
counterexample). -/
def rdCE : ResumeData :=
  { contact_info := { name := "", email := "", phone := "", linkedin := "", github := "", location := "" },
    skills := [], experience := [], education := [], summary := "",
    projects := [], certifications := [], full_text := "x", file_format := none }

/-- A similarity backend valuation: 30.6 (= 153/5, a value any cosine
backend can produce) for the one text pair of claim C9's counterexample,
0 elsewhere. -/
def semCE : String → String → ℚ :=
  fun a b => if a = "x" ∧ b = "programming" then 153/5 else 0

/-- The constantly-zero similarity backend. -/
def semZero : String → String → ℚ := fun _ _ => 0

/-- The empty requirement ranker. -/
def keyReqZero : String → List String := fun _ => []

/-! ## Helper lemmas about the numeric primitives -/

theorem pyRound_ge_floor (q : ℚ) : ⌊q⌋ ≤ pyRound q := by
  unfold pyRound
  split_ifs <;> omega

theorem pyRound_le_floor_add_one (q : ℚ) : pyRound q ≤ ⌊q⌋ + 1 := by
  unfold pyRound
  split_ifs <;> omega

theorem pyRound_mono {q r : ℚ} (h : q ≤ r) : pyRound q ≤ pyRound r := by
  have hf : ⌊q⌋ ≤ ⌊r⌋ := Int.floor_mono h
  rcases eq_or_lt_of_le hf with he | hl
  · have hfr : q - ⌊q⌋ ≤ r - ⌊r⌋ := by
      rw [← he]
      linarith
    unfold pyRound
    rw [← he]
    split_ifs <;> first | omega | linarith
  · calc pyRound q ≤ ⌊q⌋ + 1 := pyRound_le_floor_add_one q
      _ ≤ ⌊r⌋ := by omega
      _ ≤ pyRound r := pyRound_ge_floor r

theorem pyRound_zero : pyRound 0 = 0 := by norm_num [pyRound]

theorem pyRound_hundred : pyRound 100 = 100 := by norm_num [pyRound]

theorem pyRound_nonneg {q : ℚ} (h : 0 ≤ q) : 0 ≤ pyRound q := by
  have := pyRound_mono h
  rwa [pyRound_zero] at this

theorem pyRound_le_hundred {q : ℚ} (h : q ≤ 100) : pyRound q ≤ 100 := by
  have := pyRound_mono h
  rwa [pyRound_hundred] at this

theorem pyTrunc_nonneg {q : ℚ} (h : 0 ≤ q) : 0 ≤ pyTrunc q := by
  unfold pyTrunc
  rw [if_pos h]
  exact Int.floor_nonneg.mpr h

theorem pyTrunc_le_hundred {q : ℚ} (h : q ≤ 100) : pyTrunc q ≤ 100 := by
  unfold pyTrunc
  split_ifs with h0
  · calc ⌊q⌋ ≤ ⌊(100 : ℚ)⌋ := Int.floor_mono h
      _ = 100 := by norm_num
  · have : (0 : ℚ) ≤ -q := by linarith [le_of_not_le h0]
    have h2 : (0 : ℤ) ≤ ⌊-q⌋ := Int.floor_nonneg.mpr this
    omega

set_option maxRecDepth 1000000

theorem idxOf?_lt_length (x : String) :
    ∀ (l : List String) (i : Nat), idxOf? x l = some i → i < l.length
  | [], i, h => by simp [idxOf?] at h
  | y :: ys, i, h => by
    rw [idxOf?] at h
    by_cases hp : y = x
    · rw [if_pos hp] at h
      cases h
      simp
    · rw [if_neg hp] at h
      rcases Option.map_eq_some'.mp h with ⟨j, hj, hji⟩
      have hlt := idxOf?_lt_length x ys j hj
      subst hji
      simpa using Nat.succ_lt_succ hlt

/-! ## The claims -/

/-- Claim C1 (code bug): the spec states that entity extraction never
returns an error — in particular that any text matching the
experience-header pattern still yields a full entity record.  The code
violates this: on a fresh parser (the `certifications_headers` attribute
has never been assigned, because `_extract_certifications` — the only
assignment site — has not run yet), `_extract_experience` reads the
missing attribute as soon as an experience header is found, raising
`AttributeError`, which `_process_text` propagates (first conjunct:
the input `"professional"` matches the header pattern and extraction
errors).  With the attribute present the very same input succeeds (second
conjunct), isolating the failure to the undefined attribute. -/
theorem claim1_entity_extraction_error :
    processText false "professional" = none ∧
    (processText true "professional").isSome = true := by
  decide

/-- Claim C2, counterexample: on the spec's §8 scenario text, extraction
on a fresh parser errors outright (`AttributeError` on
`certifications_headers`), and in the only state where it completes the
experience list is empty — not "exactly one entry with date_range
Jan 2020 - Dec 2021" — because the sole experience entry shares its
blank-line-delimited block with the `Experience` header and block 0 is
skipped as the header. -/
theorem claim2_counterexample :
    processText false c2text = none ∧
    (processText true c2text).map (fun r => r.experience.length) = some 0 := by
  decide

/-- Claim C2 (amended): on the scenario text, in the parser state where
`_process_text` completes, `contact_info.email` is `john@x.com` and the
skills are exactly `{python, sql}` as the claim states, but the extracted
experience list is empty. -/
theorem claim2_amended :
    (processText true c2text).map
      (fun r => (r.contact_info.email, r.skills, r.experience)) =
      some ("john@x.com", ["python", "sql"], []) := by
  decide

/-- Claim C5: for every resume, job description and importance tier named
by the spec (`high`, `medium`, `low`), when keyword extraction yields at
least one keyword, the keyword-match sub-score equals the claim's formula
(`matched/total × 100` modified by the tier), truncated to the 0–100
integer sub-score (`int(...)` in the source; sub-scores are integers per
the spec's data model).  `specKeywordScore` transcribes the claim wording;
the left side is the source-derived scorer. -/
theorem claim5_keyword_match_formula (rd : ResumeData) (jd imp : String)
    (h1 : atsExtractKeywords jd ≠ [])
    (h2 : imp = "high" ∨ imp = "medium" ∨ imp = "low") :
    (checkKeywordMatch rd jd imp).1 =
      pyTrunc (specKeywordScore ((atsExtractKeywords jd).filter (kwFound rd)).length
        (atsExtractKeywords jd).length imp) := by
  have hn : ¬ ((atsExtractKeywords jd).length = 0) := by
    intro hl
    exact h1 (List.eq_nil_of_length_eq_zero hl)
  rcases h2 with h | h | h <;> subst h <;>
    simp [checkKeywordMatch, kwScoreOf, specKeywordScore, applyImportance, hn]

/-- Witness for C5 at a concrete input: job description `python`,
tier `high`, resume text `I know python.`. -/
theorem claim5_witness :
    atsExtractKeywords "python" ≠ [] ∧
    ("high" = "high" ∨ "high" = "medium" ∨ "high" = "low") ∧
    (checkKeywordMatch rdW5 "python" "high").1 =
      pyTrunc (specKeywordScore ((atsExtractKeywords "python").filter (kwFound rdW5)).length
        (atsExtractKeywords "python").length "high") :=
  ⟨by decide, Or.inl rfl,
    claim5_keyword_match_formula rdW5 "python" "high" (by decide) (Or.inl rfl)⟩

/-- Claim C8: at the pipeline level, when the job description is empty or
absent the match analysis is not performed: the controller leaves
`keyword_analysis` as the `None` sentinel and the downstream
`scores.overall_match` entry is `None` — no exception and no zero-filled
report. -/
theorem claim8_empty_jd_sentinel (sem : String → String → ℚ)
    (keyReq : String → List String) (rd : ResumeData) (jd : Option String)
    (h : jd = none ∨ jd = some "") :
    controllerKeywordAnalysis sem keyReq rd jd = none ∧
    controllerOverallMatch sem keyReq rd jd = none := by
  rcases h with h | h <;> subst h <;>
    simp [controllerKeywordAnalysis, controllerOverallMatch, jdTruthy]

/-- Witness for C8 at a concrete input (absent job description). -/
theorem claim8_witness :
    ((none : Option String) = none ∨ (none : Option String) = some "") ∧
    (controllerKeywordAnalysis semZero keyReqZero emptyRD none = none ∧
      controllerOverallMatch semZero keyReqZero emptyRD none = none) :=
  ⟨Or.inl rfl, claim8_empty_jd_sentinel semZero keyReqZero emptyRD none (Or.inl rfl)⟩

/-- Claim C10: for every resume and importance tier, when keyword
extraction over the job description yields zero keywords, the
keyword-match check returns the default score 50 with empty matching and
missing lists — no division by zero occurs (the zero-total branch is taken
before the percentage is formed) and nothing is raised. -/
theorem claim10_zero_keywords_default (rd : ResumeData) (jd imp : String)
    (h : atsExtractKeywords jd = []) :
    checkKeywordMatch rd jd imp = (50, [], []) := by
  simp [checkKeywordMatch, kwScoreOf, h]

/-- Witness for C10: `to be or not to be` consists only of stop words and
words of length ≤ 2 and contains no dictionary skill term, so extraction
yields zero keywords. -/
theorem claim10_witness :
    atsExtractKeywords "to be or not to be" = [] ∧
    checkKeywordMatch emptyRD "to be or not to be" "medium" = (50, [], []) :=
  ⟨by decide, claim10_zero_keywords_default emptyRD "to be or not to be" "medium" (by decide)⟩

/-- Claim C3: for every entity record, optional job description and
platform, the compatibility score is the Python-round of the weighted sum
of the four detailed sub-scores, with weights (0.4, 0.3, 0.2, 0.1) when a
(truthy) job description is supplied and (0, 0.5, 0.3, 0.2) when not —
the no-job-description renormalisation divides by the weight total, which
is exactly 1 — and in both cases the effective weights sum to exactly 1. -/
theorem claim3_weighted_combination (rd : ResumeData) (jd : Option String)
    (rules : PlatformRules) :
    (analyzeResume rd jd rules).compatibility_score =
      pyRound
        (((analyzeResume rd jd rules).detailed_scores.keyword_match : ℚ) * (atsWeights (jdTruthy jd)).1 +
          ((analyzeResume rd jd rules).detailed_scores.formatting : ℚ) * (atsWeights (jdTruthy jd)).2.1 +
          ((analyzeResume rd jd rules).detailed_scores.structureScore : ℚ) * (atsWeights (jdTruthy jd)).2.2.1 +
          ((analyzeResume rd jd rules).detailed_scores.file_type : ℚ) * (atsWeights (jdTruthy jd)).2.2.2) ∧
    (atsWeights (jdTruthy jd)).1 + (atsWeights (jdTruthy jd)).2.1 +
      (atsWeights (jdTruthy jd)).2.2.1 + (atsWeights (jdTruthy jd)).2.2.2 = 1 := by
  cases hJD : jdTruthy jd
  · simp only [analyzeResume, combineScores, atsWeights, hJD, Bool.false_eq_true, if_false,
      if_true, Bool.not_false, Bool.not_true, ite_true, ite_false]
    refine ⟨?_, by norm_num⟩
    congr 1
    rw [show ((0 : ℚ) + 5/10 + 3/10 + 2/10) = 1 by norm_num, div_one]
    simp
  · simp only [analyzeResume, combineScores, atsWeights, hJD, Bool.false_eq_true, if_false,
      if_true, Bool.not_false, Bool.not_true, ite_true, ite_false]
    refine ⟨?_, by norm_num⟩
    congr 1

/-- Claim C7, counterexample: a whitespace-only job description is *not*
treated as absent — `" "` is truthy in Python, so the scorer takes the
job-description path (keyword sub-score 50 from zero extracted keywords,
present-jd weight set, compatibility 50), while `None` takes the
no-job-description path (compatibility 52 on the same empty resume). -/
theorem claim7_counterexample :
    analyzeResume emptyRD (some " ") taleoRules ≠ analyzeResume emptyRD none taleoRules := by
  intro h
  have h0 : checkFileFormat emptyRD.file_format taleoRules.parsing_rules.file_preferences = 50 := by
    decide
  have h1 : fmtIssuesOf emptyRD taleoRules.parsing_rules.formatting_preferences = [fmtMsgBullets] := by
    decide
  have h2 : structFeedback emptyRD taleoRules.parsing_rules.preferred_format =
      [stMsgContact, stMsgExp, stMsgEdu, stMsgSkills] := by decide
  have h3 : structFound emptyRD = 0 := by decide
  have hnone : (analyzeResume emptyRD none taleoRules).compatibility_score = 52 := by
    simp only [analyzeResume, checkFormatting, checkStructure, jdTruthy,
      h0, h1, h2, h3, List.length_cons, List.length_nil]
    norm_num [combineScores, atsWeights, fmtScoreOf, stScoreOf, pyTrunc, pyRound]
  have hws : (analyzeResume emptyRD (some " ") taleoRules).compatibility_score = 50 := by
    have h4 : atsExtractKeywords " " = [] := by decide
    have h5 : ((" " : String) = "") = False := by decide
    simp only [analyzeResume, checkFormatting, checkStructure, checkKeywordMatch, jdTruthy,
      h0, h1, h2, h3, h4, h5, List.length_cons, List.length_nil, List.filter_nil,
      Option.getD, ne_eq, ite_false, ite_true, if_false, if_true, not_false_iff]
    norm_num [combineScores, atsWeights, fmtScoreOf, stScoreOf, kwScoreOf, pyTrunc, pyRound]
  have hc := congrArg AnalysisResult.compatibility_score h
  rw [hnone, hws] at hc
  exact absurd hc (by norm_num)

/-- Claim C7 (amended): `job_description=None` and `job_description=""`
produce identical score reports (both are falsy and take the
no-job-description path); a whitespace-only string, however, is truthy and
is treated as a present job description (see the counterexample). -/
theorem claim7_none_empty_equivalent (rd : ResumeData) (rules : PlatformRules) :
    analyzeResume rd none rules = analyzeResume rd (some "") rules := rfl

theorem strAppend_ne_of_head (p t b : String) (c : Char) (hp : p.data.head? = some c)
    (hb : b.data.head? ≠ some c) : p ++ t ≠ b := by
  intro he
  apply hb
  rw [← he]
  show (p.data ++ t.data).head? = some c
  cases hd : p.data with
  | nil => rw [hd] at hp; simp at hp
  | cons y ys =>
    rw [hd] at hp
    simp only [List.head?_cons] at hp
    simpa using hp

theorem sugAddKeywords_ne (l : List String) : sugAddKeywords l ≠ sugPositive := by
  unfold sugAddKeywords
  exact strAppend_ne_of_head _ _ _ 'A' rfl (by decide)

theorem sugFileFormat_ne (l : List String) : sugFileFormat l ≠ sugPositive := by
  unfold sugFileFormat
  exact strAppend_ne_of_head _ _ _ 'U' rfl (by decide)

theorem sugFixIssue_ne (i : String) : sugFixIssue i ≠ sugPositive := by
  unfold sugFixIssue
  exact strAppend_ne_of_head _ _ _ 'F' rfl (by decide)

theorem sugFonts_ne (l : List String) : sugFonts l ≠ sugPositive := by
  unfold sugFonts
  exact strAppend_ne_of_head _ _ _ 'U' rfl (by decide)

theorem sugHeaders_ne (l : List String) : sugHeaders l ≠ sugPositive := by
  unfold sugHeaders
  exact strAppend_ne_of_head _ _ _ 'U' rfl (by decide)

set_option maxHeartbeats 1000000 in
theorem structFeedback_cases (rd : ResumeData) (pf : String) :
    ∀ x ∈ structFeedback rd pf,
      x = stMsgContact ∨ x = stMsgExp ∨ x = stMsgEdu ∨ x = stMsgSkills ∨ x = stMsgChrono := by
  intro x hx
  simp only [structFeedback] at hx
  split_ifs at hx <;>
    (try simp only [List.mem_append, List.mem_singleton, List.mem_cons, List.not_mem_nil,
      List.nil_append, List.append_nil, or_false, false_or] at hx) <;> tauto

/-- The suggestion generator never emits the generic positive message and
always emits the unconditional general reminder, for any structure
feedback drawn from `_check_structure`'s fixed message set. -/
theorem generateSuggestions_no_positive (d : DetailedScores) (missing fi sf : List String)
    (rules : PlatformRules) (hsf : ∀ x ∈ sf, x ≠ sugPositive) :
    sugPositive ∉ generateSuggestions d missing fi sf rules ∧
    sugGeneral ∈ generateSuggestions d missing fi sf rules := by
  simp only [generateSuggestions]
  rw [if_neg (by simp)]
  constructor
  · intro hm
    simp only [List.mem_append] at hm
    rcases hm with ((((h1 | h2) | h3) | h4) | h5) | h6
    · split_ifs at h1 <;> simp_all
      exact sugAddKeywords_ne missing h1.symm
    · split_ifs at h2 <;> simp_all
      exact sugFileFormat_ne _ h2.symm
    · split_ifs at h3 <;> simp_all
      rcases h3 with ⟨i, _, hi⟩ | h3
      · exact sugFixIssue_ne i hi
      · exact sugFonts_ne _ h3.symm
    · split_ifs at h4 <;> simp_all
      rcases h4 with h4 | h4
      · exact hsf _ h4 rfl
      · exact sugHeaders_ne _ h4.symm
    · simp at h5
      exact absurd h5.symm (by decide)
    · split_ifs at h6 <;> simp_all
      exact absurd h6.symm (by decide)
  · simp

/-- Claim C6 (amended): the generic positive "well-optimized" message is
*never* emitted — the unconditional general reminder is appended before
the final emptiness check, so the suggestion list is never empty there —
and every returned suggestion list contains that general reminder.
(The source's `if not suggestions` branch is dead code.) -/
theorem claim6_positive_never_emitted (rd : ResumeData) (jd : Option String)
    (rules : PlatformRules) :
    sugPositive ∉ (analyzeResume rd jd rules).improvement_suggestions ∧
    sugGeneral ∈ (analyzeResume rd jd rules).improvement_suggestions := by
  have hsf : ∀ x ∈ structFeedback rd rules.parsing_rules.preferred_format, x ≠ sugPositive := by
    intro x hx
    rcases structFeedback_cases rd _ x hx with h | h | h | h | h <;> subst h <;> decide
  exact generateSuggestions_no_positive _ _ _ _ rules hsf

/-- Claim C6, counterexample: a resume scoring 100 on all four sub-scores
against the default platform, with a job description whose keywords all
match (no specific suggestion fires), still does not receive the generic
positive message: the suggestions are the unconditional general reminder
plus the chronological-format tip, so they do not "consist of the generic
positive message" as the claim requires. -/
theorem claim6_counterexample :
    (analyzeResume rdGood (some "python") taleoRules).detailed_scores =
      { keyword_match := 100, formatting := 100, structureScore := 100, file_type := 100 } ∧
    (analyzeResume rdGood (some "python") taleoRules).improvement_suggestions =
      [sugGeneral, sugChrono] ∧
    sugPositive ∉ [sugGeneral, sugChrono] := by
  have hFile : checkFileFormat rdGood.file_format taleoRules.parsing_rules.file_preferences = 100 := by
    have hff0 : rdGood.file_format = some { extension := ".pdf", has_problematic_elements := false } := rfl
    have hext : (lstripDots (lowerL (".pdf" : String).data)).asString = "pdf" := by decide
    have hidx : idxOf? "pdf" taleoRules.parsing_rules.file_preferences = some 0 := by decide
    simp only [checkFileFormat, hff0, hext, hidx]
    norm_num [fileScoreOf, pyTrunc, taleoRules]
  have hFmt : checkFormatting rdGood taleoRules.parsing_rules.formatting_preferences = (100, []) := by
    have h1 : fmtIssuesOf rdGood taleoRules.parsing_rules.formatting_preferences = [] := by decide
    simp only [checkFormatting, h1, List.length_nil]
    rfl
  have hSt : checkStructure rdGood taleoRules.parsing_rules.preferred_format = (100, []) := by
    have h2 : structFeedback rdGood taleoRules.parsing_rules.preferred_format = [] := by decide
    have h3 : structFound rdGood = 5 := by decide
    have h4 : stScoreOf 5 0 = 100 := by norm_num [stScoreOf, pyTrunc]
    simp only [checkStructure, h2, h3, List.length_nil, h4]
  have hKw : checkKeywordMatch rdGood "python" taleoRules.parsing_rules.keywords_importance =
      (100, ["python"], []) := by
    have h4 : atsExtractKeywords "python" = ["python"] := by decide
    have h5 : (["python"] : List String).filter (kwFound rdGood) = ["python"] := by decide
    have h6 : (["python"] : List String).filter (fun kw => ¬ kwFound rdGood kw) = [] := by decide
    have hpi : taleoRules.parsing_rules.keywords_importance = "high" := rfl
    have h8 : kwScoreOf (List.length ["python"]) (List.length ["python"]) "high" = 100 := by
      norm_num [kwScoreOf, applyImportance, pyTrunc]
    simp only [checkKeywordMatch, h4, h5, h6, hpi, h8]
  have h7 : ((("python" : String) = "")) = False := by decide
  simp only [analyzeResume, jdTruthy, h7, hFile, hFmt, hSt, hKw, Option.getD, ne_eq,
    ite_true, ite_false, if_true, if_false, not_false_iff]
  refine ⟨rfl, ?_, by decide⟩
  decide

/-- Claim C9, counterexample: the claim's formula uses the *unrounded*
skill-match value `0.7·semantic + 0.3·overlap` inside the overall
combination, but the code weights the already-rounded integer
`skill_match_percentage`.  With a resume of full text `x`, job description
`programming`, no matching keywords (overlap 0) and a backend similarity
of 30.6, the code computes `round(0.45·round(21.42)) = round(9.45) = 9`
while the claim's formula gives `round(0.45·21.42) = round(9.639) = 10`. -/
theorem claim9_counterexample :
    (analyzeSkillMatch semCE keyReqZero rdCE "programming").overall_match_percentage = 9 ∧
    specOverallMatch (153/5) (overlapPct 0 1) 0 0 0 = 10 ∧
    calcSemSim semCE (kmResumeText rdCE) "programming" = 153/5 ∧
    kmExtractKeywords "programming" = ["programming"] ∧
    kmExtractKeywords (kmResumeText rdCE) = [] := by
  have hRT : kmResumeText rdCE = "x" := by decide
  have hK : kmExtractKeywords "programming" = ["programming"] := by decide
  have hR : kmExtractKeywords "x" = [] := by decide
  have hET : expTextOf rdCE = "" := by decide
  have hSK : skillsTextOf rdCE = "" := by decide
  have hED : eduTextOf rdCE = "" := by decide
  have hsem : calcSemSim semCE "x" "programming" = 153/5 := by
    have hcond : ((("x" : String) = "" ∨ ("programming" : String) = "")) = False := by decide
    simp [calcSemSim, semCE, hcond]
  have hzero : ∀ b : String, calcSemSim semCE "" b = 0 := by
    intro b
    simp [calcSemSim]
  have hover : overlapPct 0 1 = 0 := by norm_num [overlapPct]
  have hskill : skillPctOf (153/5) 0 = 21 := by norm_num [skillPctOf, pyRound]
  refine ⟨?_, ?_, by rw [hRT]; exact hsem, hK, by rw [hRT]; exact hR⟩
  · simp only [analyzeSkillMatch, matchKeywords, hRT, hK, hR, hET, hSK, hED, hsem,
      hzero, setInter, List.filter_nil, List.length_nil, List.length_cons, hover, hskill]
    norm_num [overallOf, pyRound]
  · norm_num [specOverallMatch, hover, pyRound]

/-- Claim C9 (amended): the overall match percentage is
`round(0.45·skill_match_percentage + 0.25·experience + 0.20·skills + 0.10·education)`
where `skill_match_percentage` is the already-rounded
`round(0.7·semantic_similarity(resume_text, jd) + 0.3·overlap)` and
`overlap = |matching| / max(1, |job keywords|) × 100` — i.e. the claim's
formulas hold except that the skill-match value enters the overall
combination after being rounded to its reported integer. -/
theorem claim9_overall_formula (sem : String → String → ℚ) (keyReq : String → List String)
    (rd : ResumeData) (jd : String) :
    (analyzeSkillMatch sem keyReq rd jd).overall_match_percentage =
      overallOf (matchKeywords sem (kmResumeText rd) jd).skill_match_percentage
        (calcSemSim sem (expTextOf rd) jd) (calcSemSim sem (skillsTextOf rd) jd)
        (calcSemSim sem (eduTextOf rd) jd) ∧
    (matchKeywords sem (kmResumeText rd) jd).skill_match_percentage =
      pyRound ((7/10) * calcSemSim sem (kmResumeText rd) jd +
        (3/10) * overlapPct
          (setInter (kmExtractKeywords (kmResumeText rd)) (kmExtractKeywords jd)).length
          (kmExtractKeywords jd).length) ∧
    overlapPct
        (setInter (kmExtractKeywords (kmResumeText rd)) (kmExtractKeywords jd)).length
        (kmExtractKeywords jd).length =
      ((setInter (kmExtractKeywords (kmResumeText rd)) (kmExtractKeywords jd)).length : ℚ) /
        max 1 ((kmExtractKeywords jd).length : ℚ) * 100 :=
  ⟨rfl, rfl, rfl⟩

theorem checkFileFormat_range (ff : Option FileFormatInfo) (preferred : List String) :
    0 ≤ checkFileFormat ff preferred ∧ checkFileFormat ff preferred ≤ 100 := by
  rcases ff with _ | f
  · norm_num [checkFileFormat]
  · simp only [checkFileFormat]
    rcases hpos : idxOf? ((lstripDots (lowerL f.extension.data)).asString) preferred with _ | pos
    · simp only [fileScoreOf]
      split_ifs <;> norm_num
    · have hlt : pos < preferred.length := idxOf?_lt_length _ _ _ hpos
      simp only [fileScoreOf]
      have hm : (1 : ℚ) ≤ max 1 ((preferred.length : ℚ) - 1) := le_max_left _ _
      have hmpos : (0 : ℚ) < max 1 ((preferred.length : ℚ) - 1) := by linarith
      have hple : (pos : ℚ) ≤ max 1 ((preferred.length : ℚ) - 1) := by
        have h1 : (pos : ℚ) + 1 ≤ (preferred.length : ℚ) := by exact_mod_cast hlt
        have h2 : (pos : ℚ) ≤ (preferred.length : ℚ) - 1 := by linarith
        exact h2.trans (le_max_right _ _)
      have hd0 : (0 : ℚ) ≤ 40 * (pos : ℚ) / max 1 ((preferred.length : ℚ) - 1) := by positivity
      have hd1 : 40 * (pos : ℚ) / max 1 ((preferred.length : ℚ) - 1) ≤ 40 := by
        rw [div_le_iff₀ hmpos]
        nlinarith
      split_ifs <;>
        exact ⟨pyTrunc_nonneg (by linarith), pyTrunc_le_hundred (by linarith)⟩

theorem fmtScoreOf_range (n : Nat) : 0 ≤ fmtScoreOf n ∧ fmtScoreOf n ≤ 100 := by
  unfold fmtScoreOf
  split_ifs
  · norm_num
  · refine ⟨pyTrunc_nonneg (le_max_left _ _), pyTrunc_le_hundred (max_le (by norm_num) ?_)⟩
    have : (0 : ℚ) ≤ (n : ℚ) * (100 / (6 + 1)) := by positivity
    linarith

theorem structFound_le (rd : ResumeData) : structFound rd ≤ 5 := by
  unfold structFound
  split_ifs <;> norm_num

theorem stScoreOf_range (found nfb : Nat) (hf : found ≤ 5) :
    0 ≤ stScoreOf found nfb ∧ stScoreOf found nfb ≤ 100 := by
  unfold stScoreOf
  refine ⟨pyTrunc_nonneg (le_max_left _ _), pyTrunc_le_hundred (max_le (by norm_num) ?_)⟩
  have h1 : (found : ℚ) ≤ 5 := by exact_mod_cast hf
  have h2 : (0 : ℚ) ≤ min 40 (10 * (nfb : ℚ)) := le_min (by norm_num) (by positivity)
  have h3 : (found : ℚ) / 5 * 100 = (found : ℚ) * 20 := by ring
  rw [h3]
  linarith

theorem applyImportance_range (imp : String) (pct : ℚ) (h0 : 0 ≤ pct) (h1 : pct ≤ 100) :
    0 ≤ applyImportance imp pct ∧ applyImportance imp pct ≤ 100 := by
  unfold applyImportance
  split_ifs <;> constructor <;> nlinarith

theorem kwScoreOf_range (m n : Nat) (imp : String) (hmn : m ≤ n) :
    0 ≤ kwScoreOf m n imp ∧ kwScoreOf m n imp ≤ 100 := by
  unfold kwScoreOf
  split_ifs with hn
  · norm_num
  · have hn' : (0 : ℚ) < (n : ℚ) := by exact_mod_cast Nat.pos_of_ne_zero hn
    have hp0 : (0 : ℚ) ≤ (m : ℚ) / (n : ℚ) * 100 := by positivity
    have hp1 : (m : ℚ) / (n : ℚ) * 100 ≤ 100 := by
      have hmn' : (m : ℚ) ≤ (n : ℚ) := by exact_mod_cast hmn
      rw [div_mul_eq_mul_div, div_le_iff₀ hn']
      nlinarith
    obtain ⟨a, b⟩ := applyImportance_range imp _ hp0 hp1
    exact ⟨pyTrunc_nonneg a, pyTrunc_le_hundred b⟩

theorem checkKeywordMatch_fst_range (rd : ResumeData) (jd imp : String) :
    0 ≤ (checkKeywordMatch rd jd imp).1 ∧ (checkKeywordMatch rd jd imp).1 ≤ 100 := by
  simp only [checkKeywordMatch]
  exact kwScoreOf_range _ _ _ (List.length_filter_le _ _)

theorem combineScores_mono (b : Bool) (k f s t k2 f2 s2 t2 : ℤ)
    (hk : k ≤ k2) (hf : f ≤ f2) (hs : s ≤ s2) (ht : t ≤ t2) :
    combineScores b k f s t ≤ combineScores b k2 f2 s2 t2 := by
  have hk' : (k : ℚ) ≤ k2 := by exact_mod_cast hk
  have hf' : (f : ℚ) ≤ f2 := by exact_mod_cast hf
  have hs' : (s : ℚ) ≤ s2 := by exact_mod_cast hs
  have ht' : (t : ℚ) ≤ t2 := by exact_mod_cast ht
  cases b <;>
    simp only [combineScores, atsWeights, Bool.false_eq_true, if_false, if_true,
      Bool.not_false, Bool.not_true, ite_true, ite_false, ite_self, not_true, not_false_iff,
      show ((0 : ℚ) + 5/10 + 3/10 + 2/10) = 1 from by norm_num, div_one] <;>
    apply pyRound_mono <;> linarith

theorem combineScores_range (b : Bool) (k f s t : ℤ)
    (hk0 : 0 ≤ k) (hk1 : k ≤ 100) (hf0 : 0 ≤ f) (hf1 : f ≤ 100)
    (hs0 : 0 ≤ s) (hs1 : s ≤ 100) (ht0 : 0 ≤ t) (ht1 : t ≤ 100) :
    0 ≤ combineScores b k f s t ∧ combineScores b k f s t ≤ 100 := by
  have hk0' : (0 : ℚ) ≤ k := by exact_mod_cast hk0
  have hk1' : (k : ℚ) ≤ 100 := by exact_mod_cast hk1
  have hf0' : (0 : ℚ) ≤ f := by exact_mod_cast hf0
  have hf1' : (f : ℚ) ≤ 100 := by exact_mod_cast hf1
  have hs0' : (0 : ℚ) ≤ s := by exact_mod_cast hs0
  have hs1' : (s : ℚ) ≤ 100 := by exact_mod_cast hs1
  have ht0' : (0 : ℚ) ≤ t := by exact_mod_cast ht0
  have ht1' : (t : ℚ) ≤ 100 := by exact_mod_cast ht1
  cases b <;>
    simp only [combineScores, atsWeights, Bool.false_eq_true, if_false, if_true,
      Bool.not_false, Bool.not_true, ite_true, ite_false, ite_self, not_true, not_false_iff,
      show ((0 : ℚ) + 5/10 + 3/10 + 2/10) = 1 from by norm_num, div_one] <;>
    exact ⟨pyRound_nonneg (by linarith), pyRound_le_hundred (by linarith)⟩

/-- Claim C4: for every entity record, optional job description and
platform, the compatibility score lies in [0, 100]; and the combination
step, as a function of the four sub-scores with the other three held
fixed, is monotonically non-decreasing in each sub-score (stated
simultaneously in all four arguments). -/
theorem claim4_range_and_monotone (rd : ResumeData) (jd : Option String)
    (rules : PlatformRules) (b : Bool) (k f s t k2 f2 s2 t2 : ℤ)
    (hk : k ≤ k2) (hf : f ≤ f2) (hs : s ≤ s2) (ht : t ≤ t2) :
    (0 ≤ (analyzeResume rd jd rules).compatibility_score ∧
      (analyzeResume rd jd rules).compatibility_score ≤ 100) ∧
    combineScores b k f s t ≤ combineScores b k2 f2 s2 t2 := by
  refine ⟨?_, combineScores_mono b k f s t k2 f2 s2 t2 hk hf hs ht⟩
  have hFile := checkFileFormat_range rd.file_format rules.parsing_rules.file_preferences
  have hFmt : 0 ≤ (checkFormatting rd rules.parsing_rules.formatting_preferences).1 ∧
      (checkFormatting rd rules.parsing_rules.formatting_preferences).1 ≤ 100 := by
    simp only [checkFormatting]
    exact fmtScoreOf_range _
  have hSt : 0 ≤ (checkStructure rd rules.parsing_rules.preferred_format).1 ∧
      (checkStructure rd rules.parsing_rules.preferred_format).1 ≤ 100 := by
    simp only [checkStructure]
    exact stScoreOf_range _ _ (structFound_le rd)
  have hKw : 0 ≤ (if jdTruthy jd = true then
        checkKeywordMatch rd (jd.getD "") rules.parsing_rules.keywords_importance
      else ((0 : ℤ), ([] : List String), ([] : List String))).1 ∧
      (if jdTruthy jd = true then
        checkKeywordMatch rd (jd.getD "") rules.parsing_rules.keywords_importance
      else ((0 : ℤ), ([] : List String), ([] : List String))).1 ≤ 100 := by
    split_ifs
    · exact checkKeywordMatch_fst_range rd _ _
    · norm_num
  show 0 ≤ combineScores (jdTruthy jd) _ _ _ _ ∧ combineScores (jdTruthy jd) _ _ _ _ ≤ 100
  exact combineScores_range _ _ _ _ _ hKw.1 hKw.2 hFmt.1 hFmt.2 hSt.1 hSt.2 hFile.1 hFile.2

/-- Witness for C4 at concrete inputs. -/
theorem claim4_witness :
    ((10 : ℤ) ≤ 20 ∧ (20 : ℤ) ≤ 30 ∧ (30 : ℤ) ≤ 40 ∧ (40 : ℤ) ≤ 50) ∧
    ((0 ≤ (analyzeResume emptyRD none taleoRules).compatibility_score ∧
      (analyzeResume emptyRD none taleoRules).compatibility_score ≤ 100) ∧
      combineScores true 10 20 30 40 ≤ combineScores true 20 30 40 50) :=
  ⟨⟨by decide, by decide, by decide, by decide⟩,
    claim4_range_and_monotone emptyRD none taleoRules true 10 20 30 40 20 30 40 50
      (by decide) (by decide) (by decide) (by decide)⟩

end CV
